import Mathlib

/-!
# Verification of the PrinterStatus device status-detection engine

Shallow embedding of the core logic of `src/services/printerService.ts` and
`src/utils/errorCodes.ts`: canonical status enumeration, free-text status
normalization (`parseHtmlStatus`), raw-signal classification
(`mapStatusToEnum`), JSON-status normalization with alert overrides
(`parseJsonStatus`), error-code extraction (`parseErrorFromText`), the
error-code catalog (`getErrorCodeInfo`), and the device registry with its
bounded status history and error-resolution ledger.

Strings are modelled by Lean `String`; JavaScript `text.includes(pat)` becomes
infix containment on the character lists, and `toLowerCase`/`toUpperCase`
become ASCII case maps (all texts involved are ASCII).
Timestamps (`new Date()`) are modelled by a `Nat` clock threaded into each
operation.
-/

set_option maxRecDepth 10000

namespace PrinterStatusRepo

/-- `pat` is a prefix of `text` (character lists). -/
def charsStartWith : List Char → List Char → Bool
  | [], _ => true
  | _ :: _, [] => false
  | a :: as, b :: bs => a = b && charsStartWith as bs

/-- `pat` occurs contiguously somewhere in `text` (character lists). -/
def charsContain (text pat : List Char) : Bool :=
  match text with
  | [] => charsStartWith pat []
  | _ :: rest => charsStartWith pat text || charsContain rest pat

/-- JavaScript `text.includes(pat)`: `pat` occurs as a contiguous substring. -/
def strContains (text pat : String) : Bool :=
  charsContain text.toList pat.toList

/-- ASCII `toLowerCase` on one character. -/
def charToLower (c : Char) : Char :=
  if 'A' ≤ c ∧ c ≤ 'Z' then Char.ofNat (c.toNat + 32) else c

/-- ASCII `toUpperCase` on one character. -/
def charToUpper (c : Char) : Char :=
  if 'a' ≤ c ∧ c ≤ 'z' then Char.ofNat (c.toNat - 32) else c

/-- JavaScript `toLowerCase` (the texts involved are ASCII). -/
def strToLower (s : String) : String := String.mk (s.data.map charToLower)

/-- JavaScript `toUpperCase` (the texts involved are ASCII). -/
def strToUpper (s : String) : String := String.mk (s.data.map charToUpper)

/-- The canonical status enumeration from `src/types/printer.ts`
(`PrinterStatus`). -/
inductive PrinterStatus where
  | ready
  | printing
  | loadingPaper
  | paperJam
  | paperOut
  | lowInk
  | cartridgeIssue
  | offline
  | error
  | maintenanceRequired
  deriving DecidableEq, Repr

/-- `mapStatusToEnum` from `printerService.ts` (lines 508-523): keyword
containment tests on the lower-cased raw status string, in the source's
fixed order, defaulting to `READY`. -/
def mapStatusToEnum (statusString : String) : PrinterStatus :=
  let status := strToLower statusString
  if strContains status "ready" || strContains status "idle" then .ready
  else if strContains status "printing" || strContains status "busy" then .printing
  else if strContains status "paper" && strContains status "jam" then .paperJam
  else if strContains status "paper" && (strContains status "out" || strContains status "empty") then .paperOut
  else if strContains status "paper" && strContains status "load" then .loadingPaper
  else if strContains status "ink" || strContains status "toner" then .lowInk
  else if strContains status "cartridge" then .cartridgeIssue
  else if strContains status "maintenance" then .maintenanceRequired
  else if strContains status "offline" || strContains status "disconnected" then .offline
  else if strContains status "error" || strContains status "fault" then .error
  else .ready

/-- The `statusKeywords` table of `parseHtmlStatus` (lines 465-475), in the
source's insertion order (`Object.entries` iterates string keys in insertion
order). -/
def statusKeywords : List (String × List String) :=
  [ ("ready", ["ready", "idle", "online"]),
    ("printing", ["printing", "busy", "processing"]),
    ("loading_paper", ["loading paper", "paper loading", "load paper", "insert paper", "paper tray", "refilling"]),
    ("paper_jam", ["paper jam", "jam", "paper stuck", "paper feed", "feed error", "paper path"]),
    ("paper_out", ["paper out", "no paper", "paper empty", "out of paper", "paper low"]),
    ("cartridge_issue", ["cartridge", "ink cartridge", "toner cartridge", "replace cartridge", "cartridge error", "cartridge missing", "install cartridge"]),
    ("low_ink", ["low ink", "low toner", "ink low", "toner low", "replace ink", "replace toner"]),
    ("error", ["error", "jam", "problem", "fault"]),
    ("offline", ["offline", "disconnected", "not available"]) ]

/-- The status/message part of a parsed free-text status page. -/
structure ParsedStatus where
  status : PrinterStatus
  message : String
  deriving DecidableEq, Repr

/-- `parseHtmlStatus` (lines 459-497): the body text is lower-cased and the
keyword groups are tested in table order; the first group one of whose
keywords occurs in the text determines the status (via `mapStatusToEnum` on
the group's key) and the message (first matching keyword of that group).
The argument is the extracted DOM body text; the ink/paper-level defaults and
the `errorCode` field of the source's result object (an object literal that
duplicates the `errorCode` key) play no part in the status and are omitted. -/
def parseHtmlStatus (bodyText : String) : Option ParsedStatus :=
  let t := strToLower bodyText
  match statusKeywords.find? (fun p => p.2.any (fun k => strContains t k)) with
  | some p =>
      some { status := mapStatusToEnum p.1,
             message := "Status detected: " ++ ((p.2.find? (fun k => strContains t k)).getD "") }
  | none => none

/-! ## Error-code extraction (`parseErrorFromText`, `src/utils/errorCodes.ts`)

Each JavaScript regex of the source is embedded as a scanner over the
character list.  All seven patterns start with a word boundary followed by a
word character, so a match can only begin at the start of the text or right
after a non-word character; a global regex resumes scanning at the end of the
previous match.  JavaScript word characters are ASCII `[A-Za-z0-9_]`. -/

/-- JavaScript `\w` (ASCII word character). -/
def isWordChar (c : Char) : Bool := c.isAlphanum || c = '_'

/-- Trailing `\b` after a word character: the next character (head of the
remaining text) must be absent or a non-word character. -/
def boundaryNext (rest : List Char) : Bool :=
  match rest with
  | [] => true
  | e :: _ => !isWordChar e

/-- A pattern matcher anchored at the current position: on success returns the
captured code, the last consumed character and the remaining text. -/
def Matcher : Type := List Char → Option (String × Char × List Char)

/-- `/\b(\d{2}\.\d{2})\b/g` -/
def matchP1 : Matcher := fun text =>
  match text with
  | a :: b :: '.' :: c :: d :: rest =>
    if a.isDigit && b.isDigit && c.isDigit && d.isDigit && boundaryNext rest then
      some (String.mk [a, b, '.', c, d], d, rest)
    else none
  | _ => none

/-- `/\b(\d{2}\.\d{2}\.\d{2})\b/g` -/
def matchP2 : Matcher := fun text =>
  match text with
  | a :: b :: '.' :: c :: d :: '.' :: e :: f :: rest =>
    if a.isDigit && b.isDigit && c.isDigit && d.isDigit && e.isDigit && f.isDigit
        && boundaryNext rest then
      some (String.mk [a, b, '.', c, d, '.', e, f], f, rest)
    else none
  | _ => none

/-- `/\b([EW]-\d{2})\b/g` -/
def matchP3 : Matcher := fun text =>
  match text with
  | w :: '-' :: a :: b :: rest =>
    if (w = 'E' || w = 'W') && a.isDigit && b.isDigit && boundaryNext rest then
      some (String.mk [w, '-', a, b], b, rest)
    else none
  | _ => none

/-- `/\b(E\d{2})\b/g` -/
def matchP4 : Matcher := fun text =>
  match text with
  | 'E' :: a :: b :: rest =>
    if a.isDigit && b.isDigit && boundaryNext rest then
      some (String.mk ['E', a, b], b, rest)
    else none
  | _ => none

/-- `/\b(\d{2}[A-F]\d)\b/g` -/
def matchP5 : Matcher := fun text =>
  match text with
  | a :: b :: c :: d :: rest =>
    if a.isDigit && b.isDigit && decide ('A' ≤ c ∧ c ≤ 'F') && d.isDigit
        && boundaryNext rest then
      some (String.mk [a, b, c, d], d, rest)
    else none
  | _ => none

/-- Case-insensitive literal match (the literal is given lower-cased);
returns the remaining text. -/
def matchCI : List Char → List Char → Option (List Char)
  | [], text => some text
  | _ :: _, [] => none
  | l :: ls, t :: ts => if charToLower t = l then matchCI ls ts else none

/-- `/\bError\s+(\d+)\b/gi`: the literal (case-insensitively), at least one
whitespace, a maximal digit run, then a word boundary.  Backtracking a greedy
`\d+` can never repair a failed trailing `\b` (any shorter run ends before a
digit), so requiring the character after the maximal run to be a non-word
character is exact. -/
def matchP6 : Matcher := fun text =>
  match matchCI ['e', 'r', 'r', 'o', 'r'] text with
  | none => none
  | some afterWord =>
    let ws := afterWord.takeWhile (fun ch => ch.isWhitespace)
    let afterWs := afterWord.dropWhile (fun ch => ch.isWhitespace)
    if ws.isEmpty then none
    else
      let ds := afterWs.takeWhile (fun ch => ch.isDigit)
      let rest := afterWs.dropWhile (fun ch => ch.isDigit)
      match ds.getLast? with
      | none => none
      | some lastd => if boundaryNext rest then some (String.mk ds, lastd, rest) else none

/-- The character class `[A-Z0-9\-\.]` under the `i` flag. -/
def isCodeClassChar (c : Char) : Bool := c.isAlpha || c.isDigit || c = '-' || c = '.'

/-- Greedy-with-backtracking trailing `\b` for a character-class run: given
the run reversed and the character following the run, keep the longest
nonempty prefix of the run whose last character forms a word boundary with
what follows it.  Returns the reversed capture (head = last captured
character). -/
def shrinkRev : List Char → Option Char → Option (List Char)
  | [], _ => none
  | a :: ras, nxt =>
    let ok := match nxt with
      | none => isWordChar a
      | some b => isWordChar a != isWordChar b
    if ok then some (a :: ras) else shrinkRev ras (some a)

/-- `/\bCode\s+([A-Z0-9\-\.]+)\b/gi`: the literal (case-insensitively), at
least one whitespace, a maximal class run shrunk from the right until the
trailing word boundary holds; characters given back by the shrink remain in
the text for the rest of the scan (the regex `lastIndex` is the match end). -/
def matchP7 : Matcher := fun text =>
  match matchCI ['c', 'o', 'd', 'e'] text with
  | none => none
  | some afterWord =>
    let ws := afterWord.takeWhile (fun ch => ch.isWhitespace)
    let afterWs := afterWord.dropWhile (fun ch => ch.isWhitespace)
    if ws.isEmpty then none
    else
      let run := afterWs.takeWhile isCodeClassChar
      let afterRun := afterWs.dropWhile isCodeClassChar
      match shrinkRev run.reverse afterRun.head? with
      | none => none
      | some [] => none
      | some (a :: ras) =>
        some (String.mk (a :: ras).reverse, a, run.drop (ras.length + 1) ++ afterRun)

/-- One global-regex scan: walk the text left to right, attempting the
matcher at every position that follows a non-word character (or the start);
on a match, collect the capture and resume after the match.  The fuel is the
text length (each step consumes at least one character). -/
def scanGo (m : Matcher) : Nat → Option Char → List Char → List String
  | 0, _, _ => []
  | _ + 1, _, [] => []
  | fuel + 1, prev, c :: rest =>
    if (match prev with | none => true | some p => !isWordChar p) then
      match m (c :: rest) with
      | some (cap, lastc, remaining) => cap :: scanGo m fuel (some lastc) remaining
      | none => scanGo m fuel (some c) rest
    else scanGo m fuel (some c) rest

/-- All matches of one pattern over the whole text, in order. -/
def runPattern (m : Matcher) (chars : List Char) : List String :=
  scanGo m chars.length none chars

/-- The source's ordered family of patterns. -/
def errorPatterns : List Matcher :=
  [matchP1, matchP2, matchP3, matchP4, matchP5, matchP6, matchP7]

/-- `parseErrorFromText` (`errorCodes.ts`, lines 269-294): apply each pattern
globally over the text in pattern order, collecting captures and skipping any
code already collected.  The `printerModel` parameter is accepted and unused,
exactly as in the source. -/
def parseErrorFromText (text : String) (printerModel : Option String) : List String :=
  let chars := text.toList
  errorPatterns.foldl
    (fun acc m =>
      (runPattern m chars).foldl
        (fun acc code => if acc.contains code then acc else acc ++ [code]) acc)
    []

/-! ## Error-code catalog (`src/utils/errorCodes.ts`) -/

/-- `ErrorSeverity` from `src/types/printer.ts`. -/
inductive ErrorSeverity where
  | low
  | medium
  | high
  | critical
  deriving DecidableEq, Repr

/-- `ErrorCategory` from `src/types/printer.ts`. -/
inductive ErrorCategory where
  | paper
  | inkToner
  | mechanical
  | network
  | system
  | userIntervention
  deriving DecidableEq, Repr

/-- A catalog descriptor: `Omit<ErrorCode, 'timestamp' | 'resolved'>`. -/
structure ErrorInfo where
  code : String
  description : String
  severity : ErrorSeverity
  category : ErrorCategory
  solution : Option String
  deriving DecidableEq, Repr

/-- `ERROR_CODE_DATABASE`: the vendor-neutral table, keyed by code. -/
def ERROR_CODE_DATABASE : List (String × ErrorInfo) :=
  [ ("13.01", ⟨"13.01", "Paper jam in input tray", .medium, .paper,
      some "Remove jammed paper from input tray. Check for torn pieces."⟩),
    ("13.02", ⟨"13.02", "Paper jam in output tray", .medium, .paper,
      some "Remove jammed paper from output tray. Clear paper path."⟩),
    ("13.05", ⟨"13.05", "Paper jam in fuser area", .high, .paper,
      some "Turn off printer, wait 30 minutes for fuser to cool, then remove jam."⟩),
    ("41.01", ⟨"41.01", "Paper size mismatch", .low, .paper,
      some "Load correct paper size or adjust printer settings."⟩),
    ("41.03", ⟨"41.03", "Paper type mismatch", .low, .paper,
      some "Load correct paper type or change printer settings."⟩),
    ("10.00", ⟨"10.00", "Black cartridge missing or not detected", .high, .inkToner,
      some "Install or reseat black ink/toner cartridge."⟩),
    ("10.01", ⟨"10.01", "Cyan cartridge missing or not detected", .high, .inkToner,
      some "Install or reseat cyan ink cartridge."⟩),
    ("10.02", ⟨"10.02", "Magenta cartridge missing or not detected", .high, .inkToner,
      some "Install or reseat magenta ink cartridge."⟩),
    ("10.03", ⟨"10.03", "Yellow cartridge missing or not detected", .high, .inkToner,
      some "Install or reseat yellow ink cartridge."⟩),
    ("10.10", ⟨"10.10", "Cartridge incompatible or counterfeit", .medium, .inkToner,
      some "Replace with genuine cartridge compatible with this printer model."⟩),
    ("50.01", ⟨"50.01", "Fuser error - temperature too low", .high, .mechanical,
      some "Turn printer off and on. If error persists, replace fuser unit."⟩),
    ("50.02", ⟨"50.02", "Fuser error - temperature too high", .critical, .mechanical,
      some "Turn off printer immediately. Allow cooling. Contact service if error persists."⟩),
    ("51.01", ⟨"51.01", "Laser scanner error", .high, .mechanical,
      some "Clean laser scanner mirror. If error persists, replace laser unit."⟩),
    ("52.01", ⟨"52.01", "Scanner motor error", .high, .mechanical,
      some "Turn printer off and on. If error persists, replace scanner motor."⟩),
    ("79.00", ⟨"79.00", "Network communication error", .medium, .network,
      some "Check network cable connection. Restart network services."⟩),
    ("79.01", ⟨"79.01", "Network timeout error", .low, .network,
      some "Check network stability. Reduce network traffic or increase timeout."⟩),
    ("20.00", ⟨"20.00", "Memory error - insufficient RAM", .medium, .system,
      some "Reduce print job complexity or add more memory to printer."⟩),
    ("21.00", ⟨"21.00", "Page too complex to print", .low, .system,
      some "Simplify document or print at lower resolution."⟩),
    ("22.00", ⟨"22.00", "EIO card error", .medium, .system,
      some "Reseat or replace EIO card. Check card compatibility."⟩),
    ("30.01", ⟨"30.01", "Cover open", .low, .userIntervention,
      some "Close all printer covers and doors."⟩),
    ("30.02", ⟨"30.02", "Tray missing", .low, .userIntervention,
      some "Insert paper tray properly into printer."⟩),
    ("40.01", ⟨"40.01", "Bad serial transmission", .medium, .network,
      some "Check cable connections. Replace serial cable if necessary."⟩) ]

/-- `HP_ERROR_CODES`. -/
def HP_ERROR_CODES : List (String × ErrorInfo) :=
  [ ("49.38.01", ⟨"49.38.01", "Firmware error - corrupt print job", .medium, .system,
      some "Cancel current print job. Update printer firmware."⟩),
    ("59.F0", ⟨"59.F0", "Transfer roller motor error", .high, .mechanical,
      some "Turn printer off and on. Replace transfer roller if error persists."⟩) ]

/-- `CANON_ERROR_CODES`. -/
def CANON_ERROR_CODES : List (String × ErrorInfo) :=
  [ ("E02", ⟨"E02", "Paper feed error", .medium, .paper,
      some "Remove paper from rear tray and reload properly."⟩),
    ("E03", ⟨"E03", "Paper jam error", .medium, .paper,
      some "Remove jammed paper. Check for torn pieces in paper path."⟩),
    ("E04", ⟨"E04", "Ink cartridge not recognized", .high, .inkToner,
      some "Remove and reinstall ink cartridge. Clean cartridge contacts."⟩),
    ("E05", ⟨"E05", "Ink cartridge not installed", .high, .inkToner,
      some "Install the correct ink cartridge for this printer model."⟩) ]

/-- `EPSON_ERROR_CODES`. -/
def EPSON_ERROR_CODES : List (String × ErrorInfo) :=
  [ ("W-01", ⟨"W-01", "Ink pad at end of service life", .high, .mechanical,
      some "Contact Epson service center to replace ink pad."⟩),
    ("E-01", ⟨"E-01", "Printer head error", .critical, .mechanical,
      some "Turn printer off and on. If error persists, replace print head."⟩),
    ("E-02", ⟨"E-02", "Scanner error", .high, .mechanical,
      some "Remove any obstructions from scanner unit. Restart printer."⟩) ]

/-- Record-table lookup (`TABLE[code]`). -/
def tableLookup (table : List (String × ErrorInfo)) (code : String) : Option ErrorInfo :=
  (table.find? (fun p => p.1 = code)).map (fun p => p.2)

/-- `getErrorCodeInfo` (`errorCodes.ts`, lines 247-267): a vendor-specific
table is consulted when the model string (upper-cased) contains the vendor
name and that table has the exact code; otherwise the vendor-neutral table;
otherwise nothing (`null`). -/
def getErrorCodeInfo (code : String) (printerModel : Option String) : Option ErrorInfo :=
  let vendorHit :=
    match printerModel with
    | none => none
    | some model =>
      let modelUpper := strToUpper model
      if strContains modelUpper "HP" && (tableLookup HP_ERROR_CODES code).isSome then
        tableLookup HP_ERROR_CODES code
      else if strContains modelUpper "CANON" && (tableLookup CANON_ERROR_CODES code).isSome then
        tableLookup CANON_ERROR_CODES code
      else if strContains modelUpper "EPSON" && (tableLookup EPSON_ERROR_CODES code).isSome then
        tableLookup EPSON_ERROR_CODES code
      else none
  match vendorHit with
  | some info => some info
  | none => tableLookup ERROR_CODE_DATABASE code

/-! ## Device registry and history ledger (`PrinterService`)

The service's two `Map`s are modelled as association lists with JavaScript
`Map.set` semantics (replace in place, or append when absent).  `Date`
timestamps become a `Nat` clock passed into each operation.  The `Printer`
record follows the shape the service actually reads and writes
(`statusHistory`, `errorCodes`, `lastErrorCode`, ink/paper levels). -/

/-- Per-channel ink levels. -/
structure InkLevels where
  black : Nat
  cyan : Nat
  magenta : Nat
  yellow : Nat
  deriving DecidableEq, Repr

/-- `StatusHistoryEntry` from `src/types/printer.ts`. -/
structure StatusHistoryEntry where
  timestamp : Nat
  status : PrinterStatus
  message : Option String
  errorCode : Option String
  deriving DecidableEq, Repr

/-- `ErrorCode` ledger entry from `src/types/printer.ts`. -/
structure ErrorCode where
  code : String
  description : String
  severity : ErrorSeverity
  category : ErrorCategory
  timestamp : Nat
  resolved : Bool
  solution : Option String
  deriving DecidableEq, Repr

/-- `PrinterConfig` from `printerService.ts`. -/
structure PrinterConfig where
  id : String
  name : String
  ipAddress : String
  location : String
  model : String
  deriving DecidableEq, Repr

/-- A registered device record, as the service builds and mutates it. -/
structure Printer where
  id : String
  name : String
  ipAddress : String
  location : String
  model : String
  status : PrinterStatus
  inkLevels : InkLevels
  paperLevel : Nat
  lastUpdated : Nat
  statusHistory : List StatusHistoryEntry
  errorCodes : List ErrorCode
  lastErrorCode : Option String
  deriving DecidableEq, Repr

/-- JavaScript `Map.get`. -/
def getAssoc {α : Type} : List (String × α) → String → Option α
  | [], _ => none
  | (k, v) :: rest, key => if k = key then some v else getAssoc rest key

/-- JavaScript `Map.set`: replace the existing binding in place, or append. -/
def setAssoc {α : Type} : List (String × α) → String → α → List (String × α)
  | [], key, v => [(key, v)]
  | (k, v') :: rest, key, v =>
      if k = key then (key, v) :: rest else (k, v') :: setAssoc rest key v

/-- JavaScript `Map.delete`. -/
def delAssoc {α : Type} : List (String × α) → String → List (String × α)
  | [], _ => []
  | (k, v) :: rest, key => if k = key then rest else (k, v) :: delAssoc rest key

/-- The `PrinterService` state: the `printers` map and the `statusHistory`
map (persistence is an opaque side effect and carries no extra state). -/
structure ServiceState where
  printers : List (String × Printer)
  statusHistory : List (String × List StatusHistoryEntry)
  deriving DecidableEq, Repr

/-- The freshly constructed service (empty maps). -/
def emptyState : ServiceState := ⟨[], []⟩

/-- The device record `addPrinter` builds from a config. -/
def freshPrinter (config : PrinterConfig) (now : Nat) : Printer :=
  { id := config.id, name := config.name, ipAddress := config.ipAddress,
    location := config.location, model := config.model,
    status := .offline, inkLevels := ⟨0, 0, 0, 0⟩, paperLevel := 0,
    lastUpdated := now, statusHistory := [], errorCodes := [],
    lastErrorCode := none }

/-- `addPrinter` (lines 89-104): unconditionally (re)binds the id to a fresh
Offline record and resets the id's history ledger to empty. -/
def addPrinter (st : ServiceState) (config : PrinterConfig) (now : Nat) : ServiceState :=
  { printers := setAssoc st.printers config.id (freshPrinter config now),
    statusHistory := setAssoc st.statusHistory config.id [] }

/-- `removePrinter` (lines 106-110). -/
def removePrinter (st : ServiceState) (id : String) : ServiceState :=
  { printers := delAssoc st.printers id,
    statusHistory := delAssoc st.statusHistory id }

/-- The append-and-evict step of `addStatusHistoryEntry` (lines 725-729):
push the entry, then `history.splice(0, history.length - 50)` evicts from the
front down to the 50 most recent. -/
def appendEvict (history : List StatusHistoryEntry) (entry : StatusHistoryEntry) :
    List StatusHistoryEntry :=
  let history2 := history ++ [entry]
  if history2.length > 50 then history2.drop (history2.length - 50) else history2

/-- `addStatusHistoryEntry` (lines 716-740): append the entry to the id's
ledger with eviction, store the ledger back, and — when the device exists —
replace the device record's `statusHistory` with a copy of the ledger. -/
def addStatusHistoryEntry (st : ServiceState) (printerId : String)
    (status : PrinterStatus) (message : Option String)
    (errorCode : Option String) (now : Nat) : ServiceState :=
  let history := (getAssoc st.statusHistory printerId).getD []
  let history3 := appendEvict history ⟨now, status, message, errorCode⟩
  let st1 : ServiceState := { st with statusHistory := setAssoc st.statusHistory printerId history3 }
  match getAssoc st1.printers printerId with
  | some p =>
      { st1 with printers := setAssoc st1.printers printerId { p with statusHistory := history3 } }
  | none => st1

/-- The unresolved-duplicate guard of `processErrorCodes`:
`printer.errorCodes.find(e => e.code === code && !e.resolved)`. -/
def hasUnresolved (errorCodes : List ErrorCode) (code : String) : Bool :=
  (errorCodes.find? (fun e => e.code = code && !e.resolved)).isSome

/-- The `ErrorCode` entry `processErrorCodes` builds for a newly observed
code: catalog fields when the catalog knows the code, otherwise the Unknown
descriptor (`Unknown error code: {code}`, Medium, System).  Catalog
descriptions are never the empty string, so `getD` models `||` faithfully. -/
def mkObservedError (code : String) (printerModel : String) (now : Nat) : ErrorCode :=
  let errorInfo := getErrorCodeInfo code (some printerModel)
  { code := code,
    description := (errorInfo.map (fun i => i.description)).getD ("Unknown error code: " ++ code),
    severity := (errorInfo.map (fun i => i.severity)).getD .medium,
    category := (errorInfo.map (fun i => i.category)).getD .system,
    timestamp := now,
    resolved := false,
    solution := errorInfo.bind (fun i => i.solution) }

/-- The per-code body of the `errorCodes.forEach` loop in `processErrorCodes`
(lines 652-670): skip a code that already has an unresolved entry, otherwise
append a new unresolved entry and record the code as the device's most
recent. -/
def observeCode (printerModel : String) (now : Nat) (p : Printer) (code : String) : Printer :=
  if hasUnresolved p.errorCodes code then p
  else
    { p with errorCodes := p.errorCodes ++ [mkObservedError code printerModel now],
             lastErrorCode := some code }

/-- `processErrorCodes` (lines 646-674): extract codes from the message, then
run the observation loop over them and store the device back; no-op when the
device is missing or no code was extracted. -/
def processErrorCodes (st : ServiceState) (printerId message printerModel : String)
    (now : Nat) : ServiceState :=
  let errorCodes := parseErrorFromText message (some printerModel)
  match getAssoc st.printers printerId with
  | none => st
  | some printer =>
    if errorCodes.isEmpty then st
    else
      let printer2 := errorCodes.foldl (observeCode printerModel now) printer
      { st with printers := setAssoc st.printers printerId printer2 }

/-- Mark the first unresolved entry carrying `code` resolved
(`find` + in-place mutation in the source). -/
def resolveFirst : List ErrorCode → String → List ErrorCode
  | [], _ => []
  | e :: rest, code =>
      if e.code = code && !e.resolved then { e with resolved := true } :: rest
      else e :: resolveFirst rest code

/-- `resolveErrorCode` (lines 677-687): no-op when the device is missing or
no unresolved entry carries the code. -/
def resolveErrorCode (st : ServiceState) (printerId code : String) : ServiceState :=
  match getAssoc st.printers printerId with
  | none => st
  | some p =>
      if hasUnresolved p.errorCodes code then
        let p2 := { p with errorCodes := resolveFirst p.errorCodes code }
        { st with printers := setAssoc st.printers printerId p2 }
      else st

/-- `updatePrinterStatus` (lines 700-714): build the updated record first
(the source's spread copies the pre-append `statusHistory` array reference,
so the stored record keeps the history as it was before this call's append),
append a ledger entry only when the status changed, store the record. -/
def updatePrinterStatus (st : ServiceState) (printer : Printer)
    (status : PrinterStatus) (message : Option String) (now : Nat) :
    ServiceState × Printer :=
  let updated := { printer with status := status, lastUpdated := now }
  let st1 := if printer.status ≠ status then
               addStatusHistoryEntry st printer.id status message none now
             else st
  ({ st1 with printers := setAssoc st1.printers printer.id updated }, updated)

/-- The per-check network outcome, abstracting the probe/fetch stages:
the device was unreachable, a status payload was parsed (`StatusData`),
the device was reachable but no endpoint yielded data, or the check threw. -/
structure StatusData where
  status : PrinterStatus
  inkLevels : InkLevels
  paperLevel : Nat
  message : Option String
  errorCode : Option String
  deriving DecidableEq, Repr

/-- Outcome of the probe/fetch stages for one check. -/
inductive CheckResult where
  | unreachable
  | detected (d : StatusData)
  | noData
  | exception (msg : String)
  deriving DecidableEq, Repr

/-- Lines 150-169 of `checkPrinterStatus`, once `statusData` is known.
`updatedPrinter` is spread from the pre-check record, so its
`statusHistory` array predates the ledger append, while its `errorCodes`
array is the very array `processErrorCodes` pushes into (the argument is the
registry's record); the stored record therefore carries the post-process
error ledger but the pre-append history copy, and `lastErrorCode` as it was
at spread time. -/
def checkWithData (st : ServiceState) (printer : Printer) (d : StatusData)
    (now : Nat) : ServiceState × Printer :=
  let st1 := if printer.status ≠ d.status then
               addStatusHistoryEntry st printer.id d.status d.message d.errorCode now
             else st
  let st2 := match d.message with
             | some m => processErrorCodes st1 printer.id m printer.model now
             | none => st1
  let sharedErrors := ((getAssoc st2.printers printer.id).map (fun p => p.errorCodes)).getD printer.errorCodes
  let updated := { printer with
                   status := d.status, inkLevels := d.inkLevels,
                   paperLevel := d.paperLevel, lastUpdated := now,
                   errorCodes := sharedErrors }
  ({ st2 with printers := setAssoc st2.printers printer.id updated }, updated)

/-- `checkPrinterStatus` (lines 121-177): unreachable forces Offline with
message "Network unreachable"; a missing payload is treated optimistically as
Ready with the low-confidence message and default consumable levels; an
exception is caught at the per-device boundary, its text fed through the
error-code extractor, and the status forced to Error.  In the exception path
the record passed on to `updatePrinterStatus` is the registry's record after
`processErrorCodes` mutated it (same object in the source). -/
def checkPrinterStatus (st : ServiceState) (printer : Printer) (res : CheckResult)
    (now : Nat) : ServiceState × Printer :=
  match res with
  | .unreachable =>
      updatePrinterStatus st printer .offline (some "Network unreachable") now
  | .detected d => checkWithData st printer d now
  | .noData =>
      let d : StatusData :=
        { status := .ready,
          inkLevels := if printer.inkLevels.black > 0 then printer.inkLevels else ⟨75, 80, 70, 85⟩,
          paperLevel := if printer.paperLevel > 0 then printer.paperLevel else 80,
          message := some "Status detection limited - assuming ready",
          errorCode := none }
      checkWithData st printer d now
  | .exception msg =>
      let errorMessage := "Connection error: " ++ msg
      let st1 := processErrorCodes st printer.id errorMessage printer.model now
      let printer1 := (getAssoc st1.printers printer.id).getD printer
      updatePrinterStatus st1 printer1 .error (some errorMessage) now

/-! ## JSON status normalization (`parseJsonStatus`, lines 352-390)

The payload is modelled by the fields the source reads.  JavaScript `||`
chains treat the empty string as falsy, while an array (even empty) is
truthy, so the status signal skips empty strings and the alert-list choice
takes the first present list. -/

/-- One element of an alerts/warnings/messages array. -/
structure JsonAlert where
  message : Option String
  text : Option String
  description : Option String
  deriving DecidableEq, Repr

/-- The JSON payload fields `parseJsonStatus` reads (supplies and levels are
consumable telemetry, extracted separately and not part of the status
logic). -/
structure JsonPayload where
  status : Option String
  printerStatus : Option String
  deviceStatus : Option String
  alerts : Option (List JsonAlert)
  warnings : Option (List JsonAlert)
  messages : Option (List JsonAlert)
  message : Option String
  deriving DecidableEq, Repr

/-- `a || b` on possibly-missing strings: a present, nonempty string wins. -/
def orStr (a : Option String) (b : Option String) : Option String :=
  match a with
  | some s => if s = "" then b else some s
  | none => b

/-- `alert.message || alert.text || alert.description || ''` lower-cased. -/
def alertText (a : JsonAlert) : String :=
  strToLower ((orStr a.message (orStr a.text a.description)).getD "")

/-- The alert-override loop of `parseJsonStatus` (lines 363-379): scan the
alerts in order; the first alert mentioning a jam, paper loading, or a
cartridge error/missing overrides the mapped status and stops the loop. -/
def overrideFromAlerts (alerts : List JsonAlert) (detected : PrinterStatus) : PrinterStatus :=
  match alerts with
  | [] => detected
  | a :: rest =>
    let t := alertText a
    if strContains t "paper jam" || strContains t "jam" then .paperJam
    else if strContains t "load paper" || strContains t "paper loading" then .loadingPaper
    else if strContains t "cartridge" && (strContains t "error" || strContains t "missing") then .cartridgeIssue
    else overrideFromAlerts rest detected

/-- `parseJsonStatus` (status and message): pick the primary status signal
from `status`/`printerStatus`/`deviceStatus`, map it through
`mapStatusToEnum`, let the first matching alert override it, and report
`data.message || alerts[0]?.message || 'Status from JSON API'`; `null` when
no status signal is present. -/
def parseJsonStatus (data : JsonPayload) : Option ParsedStatus :=
  let statusSignal := orStr data.status (orStr data.printerStatus data.deviceStatus)
  let alerts := (data.alerts.orElse (fun _ => data.warnings.orElse (fun _ => data.messages))).getD []
  match statusSignal with
  | none => none
  | some s =>
      let detected := overrideFromAlerts alerts (mapStatusToEnum s)
      let msg := (orStr data.message (orStr ((alerts.head?).bind (fun a => a.message)) (some "Status from JSON API"))).getD ""
      some { status := detected, message := msg }

/-! ## The public operation sequence

`checkPrinterStatus` is invoked (by `checkAllPrinters` and the UI) on records
taken from the registry, so the `Op`-level check looks the device up and is a
no-op on an unknown id. -/

/-- One public registry operation. -/
inductive Op where
  | add (config : PrinterConfig) (now : Nat)
  | remove (id : String)
  | check (id : String) (res : CheckResult) (now : Nat)
  | resolve (id : String) (code : String)

/-- Apply one operation to the service state. -/
def applyOp (st : ServiceState) : Op → ServiceState
  | .add config now => addPrinter st config now
  | .remove id => removePrinter st id
  | .check id res now =>
      match getAssoc st.printers id with
      | some p => (checkPrinterStatus st p res now).1
      | none => st
  | .resolve id code => resolveErrorCode st id code

/-- Run an operation sequence from the freshly constructed service. -/
def runOps (ops : List Op) : ServiceState := ops.foldl applyOp emptyState

/-- The id's history ledger. -/
def historyOf (st : ServiceState) (id : String) : List StatusHistoryEntry :=
  (getAssoc st.statusHistory id).getD []

/-- The id's error-code ledger. -/
def errorCodesOf (st : ServiceState) (id : String) : List ErrorCode :=
  ((getAssoc st.printers id).map (fun p => p.errorCodes)).getD []

/-- The codes of the id's unresolved error entries. -/
def unresolvedCodesOf (st : ServiceState) (id : String) : List String :=
  ((errorCodesOf st id).filter (fun e => !e.resolved)).map (fun e => e.code)

/-- The canonical status a completed check assigns, by outcome. -/
def checkStatusOf : CheckResult → PrinterStatus
  | .unreachable => .offline
  | .detected d => d.status
  | .noData => .ready
  | .exception _ => .error

/-- The message a completed check carries, by outcome. -/
def checkMessageOf : CheckResult → Option String
  | .unreachable => some "Network unreachable"
  | .detected d => d.message
  | .noData => some "Status detection limited - assuming ready"
  | .exception m => some ("Connection error: " ++ m)

/-- The error-code hint a completed check passes to the ledger, by outcome. -/
def checkErrorCodeOf : CheckResult → Option String
  | .detected d => d.errorCode
  | .unreachable => none
  | .noData => none
  | .exception _ => none

/-- Number of unresolved ledger entries carrying `code`. -/
def unresCount (l : List ErrorCode) (code : String) : Nat :=
  (l.filter (fun e => e.code = code && !e.resolved)).length

/-- Number of resolved ledger entries carrying `code`. -/
def resCount (l : List ErrorCode) (code : String) : Nat :=
  (l.filter (fun e => e.code = code && e.resolved)).length

/-- No two unresolved entries of the ledger share a code value. -/
def nodupUnres (l : List ErrorCode) : Prop :=
  ((l.filter (fun e => !e.resolved)).map (fun e => e.code)).Nodup

/-- Every history ledger in the state is within the 50-entry bound. -/
def HistBound (st : ServiceState) : Prop :=
  ∀ p ∈ st.statusHistory, (p.2).length ≤ 50

/-- Every device record in the state satisfies the unresolved-uniqueness
invariant. -/
def UnresInv (st : ServiceState) : Prop :=
  ∀ p ∈ st.printers, nodupUnres (p.2).errorCodes

/-! ## Concrete fixtures used by the theorems -/

/-- A device configuration at the spec's scenario address. -/
def cfg1 : PrinterConfig := ⟨"p1", "Printer 1", "10.0.0.5", "HQ", "HP LaserJet"⟩

/-- A parsed status payload whose message carries the unknown code `99`. -/
def dErr99 : StatusData := ⟨.error, ⟨0, 0, 0, 0⟩, 0, some "Error 99", none⟩

/-- A parsed Ready payload without a message. -/
def dReady : StatusData := ⟨.ready, ⟨75, 80, 70, 85⟩, 80, none, none⟩

/-- Observe `99`, resolve it, observe it again (leaving one resolved and one
unresolved entry for `99`). -/
def opsSeenTwice : List Op :=
  [.add cfg1 0, .check "p1" (.detected dErr99) 1, .resolve "p1" "99",
   .check "p1" (.detected dErr99) 2]

/-- `opsSeenTwice` followed by the claim's double resolve call. -/
def opsDoubleResolve : List Op :=
  opsSeenTwice ++ [.resolve "p1" "99", .resolve "p1" "99"]

/-- The spec scenario's JSON payload
`{"status":"ready","alerts":[{"message":"cartridge missing"}]}`. -/
def payloadCartridge : JsonPayload :=
  { status := some "ready", printerStatus := none, deviceStatus := none,
    alerts := some [⟨some "cartridge missing", none, none⟩],
    warnings := none, messages := none, message := none }

/-- A Ready payload with a jam alert before a cartridge alert. -/
def payloadTwoAlerts : JsonPayload :=
  { status := some "ready", printerStatus := none, deviceStatus := none,
    alerts := some [⟨some "paper jam in tray", none, none⟩, ⟨some "cartridge missing", none, none⟩],
    warnings := none, messages := none, message := none }

/-- A single-device state holding one unresolved entry for code `99`. -/
def stOneUnresolved : ServiceState :=
  ⟨[("p1", { freshPrinter cfg1 0 with
             errorCodes := [⟨"99", "Unknown error code: 99", .medium, .system, 1, false, none⟩] })], []⟩

/-! ## Association-list lemmas -/

theorem getAssoc_setAssoc_self {α : Type} (l : List (String × α)) (k : String) (v : α) :
    getAssoc (setAssoc l k v) k = some v := by
  induction l with
  | nil => simp [setAssoc, getAssoc]
  | cons p rest ih =>
    obtain ⟨k', v'⟩ := p
    by_cases h : k' = k
    · simp [setAssoc, h, getAssoc]
    · simp [setAssoc, h, getAssoc, ih]

theorem getAssoc_setAssoc_ne {α : Type} (l : List (String × α)) (k k' : String) (v : α)
    (h : k' ≠ k) : getAssoc (setAssoc l k v) k' = getAssoc l k' := by
  have h2 : ¬ k = k' := fun e => h e.symm
  induction l with
  | nil => simp [setAssoc, getAssoc, h2]
  | cons p rest ih =>
    obtain ⟨k'', v'⟩ := p
    by_cases hk : k'' = k
    · subst hk
      simp [setAssoc, getAssoc, h2]
    · simp [setAssoc, hk, getAssoc, ih]

theorem mem_of_getAssoc {α : Type} {l : List (String × α)} {k : String} {v : α}
    (h : getAssoc l k = some v) : (k, v) ∈ l := by
  induction l with
  | nil => simp [getAssoc] at h
  | cons p rest ih =>
    obtain ⟨k', v'⟩ := p
    by_cases hk : k' = k
    · subst hk
      simp [getAssoc] at h
      simp [h]
    · simp [getAssoc, hk] at h
      exact List.mem_cons_of_mem _ (ih h)

theorem mem_setAssoc {α : Type} {p : String × α} {l : List (String × α)} {k : String} {v : α}
    (h : p ∈ setAssoc l k v) : p = (k, v) ∨ p ∈ l := by
  induction l with
  | nil => simp [setAssoc] at h; simp [h]
  | cons q rest ih =>
    obtain ⟨k', v'⟩ := q
    by_cases hk : k' = k
    · subst hk
      simp [setAssoc] at h
      rcases h with h | h
      · exact Or.inl h
      · exact Or.inr (List.mem_cons_of_mem _ h)
    · simp [setAssoc, hk] at h
      rcases h with h | h
      · exact Or.inr (by simp [h])
      · rcases ih h with h' | h'
        · exact Or.inl h'
        · exact Or.inr (List.mem_cons_of_mem _ h')

theorem mem_delAssoc {α : Type} {p : String × α} {l : List (String × α)} {k : String}
    (h : p ∈ delAssoc l k) : p ∈ l := by
  induction l with
  | nil => simp [delAssoc] at h
  | cons q rest ih =>
    obtain ⟨k', v'⟩ := q
    by_cases hk : k' = k
    · subst hk
      simp [delAssoc] at h
      exact List.mem_cons_of_mem _ h
    · simp [delAssoc, hk] at h
      rcases h with h | h
      · simp [h]
      · exact List.mem_cons_of_mem _ (ih h)

/-! ## Deduplication of the extractor's accumulator -/

theorem dedup_foldl_nodup (codes acc : List String) (h : acc.Nodup) :
    (codes.foldl (fun acc code => if acc.contains code then acc else acc ++ [code]) acc).Nodup := by
  induction codes generalizing acc with
  | nil => simpa using h
  | cons c cs ih =>
    simp only [List.foldl_cons]
    cases hc : acc.contains c with
    | true => simpa [hc] using ih acc h
    | false =>
      have hcm : c ∉ acc := by
        simpa [List.contains, List.elem_eq_mem] using hc
      have : (acc ++ [c]).Nodup :=
        List.Nodup.append h (List.nodup_singleton c) (List.disjoint_singleton.2 hcm)
      simpa [hc] using ih (acc ++ [c]) this

theorem patterns_foldl_nodup (pats : List Matcher) (chars : List Char) (acc : List String)
    (h : acc.Nodup) :
    (pats.foldl
      (fun acc m =>
        (runPattern m chars).foldl
          (fun acc code => if acc.contains code then acc else acc ++ [code]) acc)
      acc).Nodup := by
  induction pats generalizing acc with
  | nil => simpa using h
  | cons m ms ih =>
    simp only [List.foldl_cons]
    exact ih _ (dedup_foldl_nodup _ acc h)

/-! ## Claim C3 -/

/-- C3, counterexample: on the spec scenario's text the extractor does not
return `["13.01"]` (the `Error NNN` pattern also captures `13`). -/
theorem c3_counterexample :
    parseErrorFromText "Error 13.01 — Paper jam in input tray" none ≠ ["13.01"] := by
  decide

/-- C3, amended: on the scenario text `ExtractCodes` returns
`["13.01", "13"]` — the two-segment pattern captures `13.01` and the
`Error`-digits pattern captures `13` — and in general matches are collected
in the fixed pattern order with duplicates removed on first occurrence, so
the result never contains a duplicate. -/
theorem c3_extractor_result :
    parseErrorFromText "Error 13.01 — Paper jam in input tray" none = ["13.01", "13"] ∧
    ∀ (t : String) (m : Option String), (parseErrorFromText t m).Nodup := by
  constructor
  · decide
  · intro t m
    exact patterns_foldl_nodup errorPatterns t.toList [] List.nodup_nil

/-! ## Claim C1 -/

/-- C1, counterexample: the text `"paper jam ready"` contains a paper-jam
keyword and the word `ready`, yet free-text normalization yields Ready, not
PaperJam — the `ready` group is tested first. -/
theorem c1_counterexample :
    (parseHtmlStatus "paper jam ready").map ParsedStatus.status = some PrinterStatus.ready ∧
    (parseHtmlStatus "paper jam ready").map ParsedStatus.status ≠ some PrinterStatus.paperJam := by
  constructor
  · decide
  · decide

/-- C1, amended: free-text normalization tests the lower-cased text against
the keyword groups in the source's order ready, printing, loading-paper,
paper-jam, paper-out, cartridge-issue, low-ink, error, offline, first group
with a keyword hit winning; in particular every text containing `ready`
yields Ready (even alongside a paper-jam keyword), and a text with only a
paper-jam keyword yields PaperJam. -/
theorem c1_ready_group_first :
    (∀ t : String, strContains (strToLower t) "ready" = true →
      (parseHtmlStatus t).map ParsedStatus.status = some PrinterStatus.ready) ∧
    parseHtmlStatus "Paper jam in input tray" =
      some ⟨PrinterStatus.paperJam, "Status detected: paper jam"⟩ := by
  constructor
  · intro t h
    have hfind : statusKeywords.find? (fun p => p.2.any (fun k => strContains (strToLower t) k))
        = some ("ready", ["ready", "idle", "online"]) := by
      have hp : (fun p : String × List String => p.2.any (fun k => strContains (strToLower t) k))
          ("ready", ["ready", "idle", "online"]) = true := by
        simp [List.any_cons, h]
      unfold statusKeywords
      exact List.find?_cons_of_pos _ hp
    simp [parseHtmlStatus, hfind]
    decide
  · decide

/-- C1, witness for the amended theorem at the text `"paper jam ready"`. -/
theorem c1_ready_group_first_witness :
    (parseHtmlStatus "paper jam ready").map ParsedStatus.status = some PrinterStatus.ready :=
  c1_ready_group_first.1 "paper jam ready" (by decide)

/-! ## Claim C8 -/

/-- C8, confirmed: the JSON payload
`{"status":"ready","alerts":[{"message":"cartridge missing"}]}` normalizes to
CartridgeIssue (the alert re-scan overrides the mapped Ready), and with a jam
alert listed before a cartridge alert the first matching alert wins
(PaperJam). -/
theorem c8_alert_override :
    parseJsonStatus payloadCartridge =
      some ⟨PrinterStatus.cartridgeIssue, "cartridge missing"⟩ ∧
    parseJsonStatus payloadTwoAlerts =
      some ⟨PrinterStatus.paperJam, "paper jam in tray"⟩ := by
  constructor
  · decide
  · decide

/-! ## Claim C9 -/

/-- C9, confirmed: the catalog lookup prefers a vendor table exactly when the
hint names that vendor and the table holds the exact code, falls back to the
vendor-neutral table otherwise, and the observation step never fails —
an unknown code yields the Unknown descriptor
(`Unknown error code: {code}`, Medium, System).  In particular `13.01`
resolves to severity Medium and category Paper under every vendor hint. -/
theorem c9_catalog_lookup :
    (∀ model : Option String,
      (getErrorCodeInfo "13.01" model).map (fun i => (i.severity, i.category))
        = some (ErrorSeverity.medium, ErrorCategory.paper)) ∧
    getErrorCodeInfo "59.F0" (some "HP LaserJet")
      = some ⟨"59.F0", "Transfer roller motor error", .high, .mechanical,
          some "Turn printer off and on. Replace transfer roller if error persists."⟩ ∧
    getErrorCodeInfo "E03" (some "HP LaserJet") = none ∧
    getErrorCodeInfo "E03" (some "Canon PIXMA")
      = some ⟨"E03", "Paper jam error", .medium, .paper,
          some "Remove jammed paper. Check for torn pieces in paper path."⟩ ∧
    (∀ (code printerModel : String) (now : Nat),
      getErrorCodeInfo code (some printerModel) = none →
        (mkObservedError code printerModel now).description = "Unknown error code: " ++ code ∧
        (mkObservedError code printerModel now).severity = ErrorSeverity.medium ∧
        (mkObservedError code printerModel now).category = ErrorCategory.system) := by
  refine ⟨?_, by decide, by decide, by decide, ?_⟩
  · intro model
    cases model with
    | none => decide
    | some m =>
      simp [getErrorCodeInfo,
        show tableLookup HP_ERROR_CODES "13.01" = none from by decide,
        show tableLookup CANON_ERROR_CODES "13.01" = none from by decide,
        show tableLookup EPSON_ERROR_CODES "13.01" = none from by decide]
      decide
  · intro code printerModel now h
    simp [mkObservedError, h]

/-- C9, witness for the Unknown-descriptor part at the unknown code `ZZZ`
and the hint `HP LaserJet`. -/
theorem c9_catalog_lookup_witness :
    (mkObservedError "ZZZ" "HP LaserJet" 0).description = "Unknown error code: ZZZ" ∧
    (mkObservedError "ZZZ" "HP LaserJet" 0).severity = ErrorSeverity.medium ∧
    (mkObservedError "ZZZ" "HP LaserJet" 0).category = ErrorCategory.system :=
  c9_catalog_lookup.2.2.2.2 "ZZZ" "HP LaserJet" 0 (by decide)

/-! ## History-ledger lemmas -/

theorem appendEvict_eq_drop (h : List StatusHistoryEntry) (e : StatusHistoryEntry) :
    appendEvict h e = (h ++ [e]).drop (h.length + 1 - 50) := by
  unfold appendEvict
  by_cases hl : (h ++ [e]).length > 50
  · simp only [hl, if_true]
    simp [List.length_append]
  · simp only [hl, if_false]
    have h0 : h.length + 1 - 50 = 0 := by
      simp [List.length_append] at hl
      omega
    simp [h0]

theorem appendEvict_length (h : List StatusHistoryEntry) (e : StatusHistoryEntry) :
    (appendEvict h e).length = min (h.length + 1) 50 := by
  rw [appendEvict_eq_drop]
  simp [List.length_drop, List.length_append]
  omega

theorem appendEvict_le (h : List StatusHistoryEntry) (e : StatusHistoryEntry) :
    (appendEvict h e).length ≤ 50 := by
  rw [appendEvict_length]
  omega

theorem addStatusHistoryEntry_statusHistory (st : ServiceState) (pid : String)
    (s : PrinterStatus) (m ec : Option String) (now : Nat) :
    (addStatusHistoryEntry st pid s m ec now).statusHistory
      = setAssoc st.statusHistory pid (appendEvict (historyOf st pid) ⟨now, s, m, ec⟩) := by
  unfold addStatusHistoryEntry historyOf
  cases hg : getAssoc st.printers pid <;> simp [hg]

theorem processErrorCodes_statusHistory (st : ServiceState) (pid msg mdl : String) (now : Nat) :
    (processErrorCodes st pid msg mdl now).statusHistory = st.statusHistory := by
  unfold processErrorCodes
  cases hg : getAssoc st.printers pid <;> simp [hg]
  split <;> rfl

theorem resolveErrorCode_statusHistory (st : ServiceState) (pid code : String) :
    (resolveErrorCode st pid code).statusHistory = st.statusHistory := by
  unfold resolveErrorCode
  cases hg : getAssoc st.printers pid <;> simp [hg]
  split <;> rfl

theorem updatePrinterStatus_statusHistory (st : ServiceState) (printer : Printer)
    (s : PrinterStatus) (m : Option String) (now : Nat) :
    ((updatePrinterStatus st printer s m now).1).statusHistory
      = (if printer.status ≠ s then addStatusHistoryEntry st printer.id s m none now
         else st).statusHistory := by
  unfold updatePrinterStatus
  split <;> simp_all

theorem checkWithData_statusHistory (st : ServiceState) (printer : Printer)
    (d : StatusData) (now : Nat) :
    ((checkWithData st printer d now).1).statusHistory
      = (if printer.status ≠ d.status then
           addStatusHistoryEntry st printer.id d.status d.message d.errorCode now
         else st).statusHistory := by
  unfold checkWithData
  cases hm : d.message <;> simp [hm, processErrorCodes_statusHistory]

theorem histBound_of_statusHistory_eq {s s' : ServiceState}
    (h : s'.statusHistory = s.statusHistory) (hb : HistBound s) : HistBound s' := by
  unfold HistBound at *
  rw [h]
  exact hb

theorem histBound_addStatusHistoryEntry (st : ServiceState) (pid : String)
    (s : PrinterStatus) (m ec : Option String) (now : Nat) (hb : HistBound st) :
    HistBound (addStatusHistoryEntry st pid s m ec now) := by
  intro p hp
  rw [addStatusHistoryEntry_statusHistory] at hp
  rcases mem_setAssoc hp with h | h
  · rw [h]
    exact appendEvict_le _ _
  · exact hb p h

theorem histBound_if_addHist (st : ServiceState) (c : Prop) [Decidable c] (pid : String)
    (s : PrinterStatus) (m ec : Option String) (now : Nat) (hb : HistBound st) :
    HistBound (if c then addStatusHistoryEntry st pid s m ec now else st) := by
  split
  · exact histBound_addStatusHistoryEntry st pid s m ec now hb
  · exact hb

theorem histBound_checkPrinterStatus (st : ServiceState) (pr : Printer)
    (res : CheckResult) (now : Nat) (hb : HistBound st) :
    HistBound ((checkPrinterStatus st pr res now).1) := by
  cases res with
  | unreachable =>
    exact histBound_of_statusHistory_eq (updatePrinterStatus_statusHistory ..)
      (histBound_if_addHist st _ _ _ _ _ _ hb)
  | detected d =>
    exact histBound_of_statusHistory_eq (checkWithData_statusHistory ..)
      (histBound_if_addHist st _ _ _ _ _ _ hb)
  | noData =>
    exact histBound_of_statusHistory_eq (checkWithData_statusHistory ..)
      (histBound_if_addHist st _ _ _ _ _ _ hb)
  | exception msg =>
    have hb1 : HistBound (processErrorCodes st pr.id ("Connection error: " ++ msg) pr.model now) :=
      histBound_of_statusHistory_eq (processErrorCodes_statusHistory ..) hb
    exact histBound_of_statusHistory_eq (updatePrinterStatus_statusHistory ..)
      (histBound_if_addHist _ _ _ _ _ _ _ hb1)

theorem histBound_applyOp (st : ServiceState) (op : Op) (hb : HistBound st) :
    HistBound (applyOp st op) := by
  cases op with
  | add cfg now =>
    intro p hp
    rcases mem_setAssoc hp with h | h
    · simp [h]
    · exact hb p h
  | remove id =>
    intro p hp
    exact hb p (mem_delAssoc hp)
  | check id res now =>
    cases hg : getAssoc st.printers id with
    | none => simpa [applyOp, hg] using hb
    | some pr =>
      simpa [applyOp, hg] using histBound_checkPrinterStatus st pr res now hb
  | resolve id code =>
    exact histBound_of_statusHistory_eq (resolveErrorCode_statusHistory ..) hb

theorem histBound_runOps (ops : List Op) : HistBound (runOps ops) := by
  have main : ∀ (l : List Op) (st : ServiceState), HistBound st → HistBound (l.foldl applyOp st) := by
    intro l
    induction l with
    | nil => intro st h; simpa using h
    | cons op rest ih =>
      intro st h
      simpa using ih (applyOp st op) (histBound_applyOp st op h)
  exact main ops emptyState (by intro p hp; simp [emptyState] at hp)

/-! ## Claim C4 -/

/-- C4, confirmed: after any sequence of registry operations every device's
history holds at most 50 entries, and one ledger append keeps exactly the
most recent `min (old + 1) 50` entries, evicting from the front (FIFO). -/
theorem c4_history_bound_fifo :
    (∀ (ops : List Op) (id : String), (historyOf (runOps ops) id).length ≤ 50) ∧
    (∀ (st : ServiceState) (id : String) (s : PrinterStatus) (m ec : Option String) (now : Nat),
      historyOf (addStatusHistoryEntry st id s m ec now) id
          = (historyOf st id ++ [(⟨now, s, m, ec⟩ : StatusHistoryEntry)]).drop
              ((historyOf st id).length + 1 - 50) ∧
        (historyOf (addStatusHistoryEntry st id s m ec now) id).length
          = min ((historyOf st id).length + 1) 50) := by
  constructor
  · intro ops id
    have hb := histBound_runOps ops
    unfold historyOf
    cases hg : getAssoc (runOps ops).statusHistory id with
    | none => simp
    | some h =>
      simpa using hb (id, h) (mem_of_getAssoc hg)
  · intro st id s m ec now
    have hh : historyOf (addStatusHistoryEntry st id s m ec now) id
        = appendEvict (historyOf st id) ⟨now, s, m, ec⟩ := by
      unfold historyOf
      rw [addStatusHistoryEntry_statusHistory, getAssoc_setAssoc_self]
      rfl
    refine ⟨?_, ?_⟩
    · rw [hh, appendEvict_eq_drop]
    · rw [hh, appendEvict_length]

/-! ## Unresolved-uniqueness lemmas -/

theorem hasUnresolved_false_iff (l : List ErrorCode) (code : String) :
    hasUnresolved l code = false ↔ ∀ e ∈ l, ¬(e.code = code ∧ e.resolved = false) := by
  unfold hasUnresolved
  rw [← Bool.not_eq_true, Option.isSome_iff_exists]
  constructor
  · intro h e he hc
    apply h
    have : (l.find? (fun e => e.code = code && !e.resolved)).isSome := by
      rw [List.find?_isSome]
      exact ⟨e, he, by simp [hc.1, hc.2]⟩
    rcases Option.isSome_iff_exists.1 this with ⟨a, ha⟩
    exact ⟨a, ha⟩
  · rintro h ⟨a, ha⟩
    have hmem := List.mem_of_find?_eq_some ha
    have hpred := List.find?_some ha
    simp at hpred
    exact h a hmem ⟨hpred.1, by simpa using hpred.2⟩

theorem nodupUnres_observeCode (mdl : String) (now : Nat) (p : Printer) (code : String)
    (h : nodupUnres p.errorCodes) : nodupUnres (observeCode mdl now p code).errorCodes := by
  unfold observeCode
  cases hu : hasUnresolved p.errorCodes code with
  | true => simpa [hu] using h
  | false =>
    simp only [hu, Bool.false_eq_true, if_false]
    unfold nodupUnres at *
    rw [List.filter_append]
    have hentry : (List.filter (fun e => !e.resolved) [mkObservedError code mdl now])
        = [mkObservedError code mdl now] := by
      simp [mkObservedError]
    rw [hentry, List.map_append]
    have hnotin : code ∉ (p.errorCodes.filter (fun e => !e.resolved)).map (fun e => e.code) := by
      intro hin
      rcases List.mem_map.1 hin with ⟨e, he, hcode⟩
      rcases List.mem_filter.1 he with ⟨hel, hres⟩
      exact (hasUnresolved_false_iff _ _).1 hu e hel ⟨hcode, by simpa using hres⟩
    have : ((p.errorCodes.filter (fun e => !e.resolved)).map (fun e => e.code)).concat code
        |>.Nodup := List.Nodup.concat hnotin h
    simpa [List.concat_eq_append, mkObservedError] using this

theorem nodupUnres_foldl_observe (codes : List String) (mdl : String) (now : Nat)
    (p : Printer) (h : nodupUnres p.errorCodes) :
    nodupUnres ((codes.foldl (observeCode mdl now) p).errorCodes) := by
  induction codes generalizing p with
  | nil => simpa using h
  | cons c cs ih =>
    simpa using ih (observeCode mdl now p c) (nodupUnres_observeCode mdl now p c h)

theorem resolveFirst_unres_sublist (l : List ErrorCode) (code : String) :
    List.Sublist ((resolveFirst l code).filter (fun e => !e.resolved))
      (l.filter (fun e => !e.resolved)) := by
  induction l with
  | nil => simp [resolveFirst]
  | cons e rest ih =>
    unfold resolveFirst
    by_cases hc : (e.code = code && !e.resolved) = true
    · rw [if_pos hc]
      have he : e.resolved = false := by
        simp at hc
        simpa using hc.2
      simp [List.filter_cons, he]
    · rw [if_neg hc]
      rw [List.filter_cons, List.filter_cons]
      cases hres : !e.resolved
      · simpa [hres] using ih
      · simpa [hres] using List.Sublist.cons₂ e ih

theorem nodupUnres_resolveFirst (l : List ErrorCode) (code : String)
    (h : nodupUnres l) : nodupUnres (resolveFirst l code) :=
  List.Nodup.sublist (List.Sublist.map _ (resolveFirst_unres_sublist l code)) h

theorem unresInv_addStatusHistoryEntry (st : ServiceState) (pid : String)
    (s : PrinterStatus) (m ec : Option String) (now : Nat) (hi : UnresInv st) :
    UnresInv (addStatusHistoryEntry st pid s m ec now) := by
  unfold addStatusHistoryEntry
  cases hg : getAssoc st.printers pid with
  | none => simpa [hg] using hi
  | some p =>
    simp only [hg]
    intro q hq
    rcases mem_setAssoc hq with h | h
    · rw [h]
      exact hi (pid, p) (mem_of_getAssoc hg)
    · exact hi q h

theorem unresInv_processErrorCodes (st : ServiceState) (pid msg mdl : String) (now : Nat)
    (hi : UnresInv st) : UnresInv (processErrorCodes st pid msg mdl now) := by
  unfold processErrorCodes
  cases hg : getAssoc st.printers pid with
  | none => simpa [hg] using hi
  | some p =>
    simp only [hg]
    split
    · exact hi
    · intro q hq
      rcases mem_setAssoc hq with h | h
      · rw [h]
        exact nodupUnres_foldl_observe _ _ _ p (hi (pid, p) (mem_of_getAssoc hg))
      · exact hi q h

theorem unresInv_updatePrinterStatus (st : ServiceState) (printer : Printer)
    (s : PrinterStatus) (m : Option String) (now : Nat) (hi : UnresInv st)
    (hp : nodupUnres printer.errorCodes) :
    UnresInv ((updatePrinterStatus st printer s m now).1) := by
  unfold updatePrinterStatus
  have hi1 : UnresInv (if printer.status ≠ s
      then addStatusHistoryEntry st printer.id s m none now else st) := by
    split
    · exact unresInv_addStatusHistoryEntry st printer.id s m none now hi
    · exact hi
  intro q hq
  simp only at hq
  rcases mem_setAssoc hq with h | h
  · rw [h]
    exact hp
  · exact hi1 q h

theorem unresInv_finalSet (st2 : ServiceState) (printer : Printer) (d : StatusData)
    (now : Nat) (hi2 : UnresInv st2) (hp : nodupUnres printer.errorCodes) :
    UnresInv { st2 with printers := (setAssoc st2.printers printer.id { printer with status := d.status, inkLevels := d.inkLevels, paperLevel := d.paperLevel, lastUpdated := now, errorCodes := ((getAssoc st2.printers printer.id).map (fun p => p.errorCodes)).getD printer.errorCodes }) } := by
  intro q hq
  rcases mem_setAssoc hq with h | h
  · rw [h]
    cases hg : getAssoc st2.printers printer.id with
    | none => simpa [hg] using hp
    | some q' => simpa [hg] using hi2 (printer.id, q') (mem_of_getAssoc hg)
  · exact hi2 q h

theorem unresInv_checkWithData (st : ServiceState) (printer : Printer)
    (d : StatusData) (now : Nat) (hi : UnresInv st)
    (hp : nodupUnres printer.errorCodes) :
    UnresInv ((checkWithData st printer d now).1) := by
  unfold checkWithData
  cases hdm : d.message with
  | none =>
    have hi1 : UnresInv (if printer.status ≠ d.status
        then addStatusHistoryEntry st printer.id d.status none d.errorCode now else st) := by
      split
      · exact unresInv_addStatusHistoryEntry st printer.id d.status none d.errorCode now hi
      · exact hi
    simpa using unresInv_finalSet _ printer d now hi1 hp
  | some m =>
    have hi1 : UnresInv (if printer.status ≠ d.status
        then addStatusHistoryEntry st printer.id d.status (some m) d.errorCode now else st) := by
      split
      · exact unresInv_addStatusHistoryEntry st printer.id d.status (some m) d.errorCode now hi
      · exact hi
    have hi2 := unresInv_processErrorCodes _ printer.id m printer.model now hi1
    simpa using unresInv_finalSet _ printer d now hi2 hp

theorem unresInv_applyOp (st : ServiceState) (op : Op) (hi : UnresInv st) :
    UnresInv (applyOp st op) := by
  cases op with
  | add cfg now =>
    intro q hq
    rcases mem_setAssoc hq with h | h
    · simp [h, freshPrinter, nodupUnres]
    · exact hi q h
  | remove id =>
    intro q hq
    exact hi q (mem_delAssoc hq)
  | resolve id code =>
    unfold applyOp resolveErrorCode
    cases hg : getAssoc st.printers id with
    | none => simpa [hg] using hi
    | some p =>
      simp only [hg]
      split
      · intro q hq
        simp only at hq
        rcases mem_setAssoc hq with h | h
        · rw [h]
          exact nodupUnres_resolveFirst _ _ (hi (id, p) (mem_of_getAssoc hg))
        · exact hi q h
      · exact hi
  | check id res now =>
    cases hg : getAssoc st.printers id with
    | none => simpa [applyOp, hg] using hi
    | some pr =>
      have hpr : nodupUnres pr.errorCodes := hi (id, pr) (mem_of_getAssoc hg)
      simp only [applyOp, hg]
      cases res with
      | unreachable => exact unresInv_updatePrinterStatus st pr _ _ now hi hpr
      | detected d => exact unresInv_checkWithData st pr d now hi hpr
      | noData => exact unresInv_checkWithData st pr _ now hi hpr
      | exception msg =>
        have hi1 : UnresInv (processErrorCodes st pr.id ("Connection error: " ++ msg) pr.model now) :=
          unresInv_processErrorCodes _ _ _ _ _ hi
        have hp1 : nodupUnres ((getAssoc (processErrorCodes st pr.id
            ("Connection error: " ++ msg) pr.model now).printers pr.id).getD pr).errorCodes := by
          cases hg1 : getAssoc (processErrorCodes st pr.id
              ("Connection error: " ++ msg) pr.model now).printers pr.id with
          | none => simpa [hg1] using hpr
          | some q' => simpa [hg1] using hi1 (pr.id, q') (mem_of_getAssoc hg1)
        exact unresInv_updatePrinterStatus _ _ _ _ now hi1 hp1

theorem unresInv_runOps (ops : List Op) : UnresInv (runOps ops) := by
  have main : ∀ (l : List Op) (st : ServiceState), UnresInv st → UnresInv (l.foldl applyOp st) := by
    intro l
    induction l with
    | nil => intro st h; simpa using h
    | cons op rest ih =>
      intro st h
      simpa using ih (applyOp st op) (unresInv_applyOp st op h)
  exact main ops emptyState (by intro q hq; simp [emptyState] at hq)

/-! ## Claim C5 -/

/-- C5, confirmed: after any sequence of operations no device's error ledger
holds two unresolved entries with the same code, and the observation step is
a no-op on a code that already has an unresolved entry. -/
theorem c5_unresolved_unique :
    (∀ (ops : List Op) (id : String), (unresolvedCodesOf (runOps ops) id).Nodup) ∧
    (∀ (mdl : String) (now : Nat) (p : Printer) (code : String),
      hasUnresolved p.errorCodes code = true → observeCode mdl now p code = p) := by
  constructor
  · intro ops id
    have hi := unresInv_runOps ops
    unfold unresolvedCodesOf errorCodesOf
    cases hg : getAssoc (runOps ops).printers id with
    | none => simp
    | some p =>
      simpa using hi (id, p) (mem_of_getAssoc hg)
  · intro mdl now p code h
    unfold observeCode
    simp [h]

/-- C5, witness for the no-op part at a device that already holds an
unresolved entry for `99`. -/
theorem c5_unresolved_unique_witness :
    observeCode "HP LaserJet" 3
      ({ freshPrinter cfg1 0 with
         errorCodes := [⟨"99", "Unknown error code: 99", .medium, .system, 1, false, none⟩] })
      "99"
    = { freshPrinter cfg1 0 with
        errorCodes := [⟨"99", "Unknown error code: 99", .medium, .system, 1, false, none⟩] } :=
  c5_unresolved_unique.2 "HP LaserJet" 3 _ "99" (by decide)

/-! ## Check-cycle lemmas -/

theorem foldl_observe_status_id (codes : List String) (mdl : String) (now : Nat) (p : Printer) :
    (codes.foldl (observeCode mdl now) p).status = p.status ∧
    (codes.foldl (observeCode mdl now) p).id = p.id := by
  induction codes generalizing p with
  | nil => simp
  | cons c cs ih =>
    have hstep : (observeCode mdl now p c).status = p.status ∧
        (observeCode mdl now p c).id = p.id := by
      unfold observeCode
      split <;> simp
    rcases ih (observeCode mdl now p c) with ⟨h1, h2⟩
    simp only [List.foldl_cons]
    exact ⟨h1.trans hstep.1, h2.trans hstep.2⟩

theorem processErrorCodes_getD_status_id (st : ServiceState) (pid msg mdl : String)
    (now : Nat) (p : Printer) (h : getAssoc st.printers pid = some p) :
    ((getAssoc (processErrorCodes st pid msg mdl now).printers pid).getD p).status = p.status ∧
    ((getAssoc (processErrorCodes st pid msg mdl now).printers pid).getD p).id = p.id := by
  simp only [processErrorCodes, h]
  by_cases he : (parseErrorFromText msg (some mdl)).isEmpty = true
  · simp [he, h]
  · rw [if_neg he, getAssoc_setAssoc_self]
    simpa using foldl_observe_status_id _ mdl now p

theorem addStatusHistoryEntry_historyOf (st : ServiceState) (pid : String)
    (s : PrinterStatus) (m ec : Option String) (now : Nat) :
    historyOf (addStatusHistoryEntry st pid s m ec now) pid
      = appendEvict (historyOf st pid) ⟨now, s, m, ec⟩ := by
  unfold historyOf
  rw [addStatusHistoryEntry_statusHistory, getAssoc_setAssoc_self]
  rfl

theorem processErrorCodes_historyOf (st : ServiceState) (pid msg mdl : String)
    (now : Nat) (id : String) :
    historyOf (processErrorCodes st pid msg mdl now) id = historyOf st id := by
  unfold historyOf
  rw [processErrorCodes_statusHistory]

/-- The history equation for one check on a registered device. -/
theorem check_historyOf (st : ServiceState) (id : String) (res : CheckResult)
    (now : Nat) (p : Printer) (h : getAssoc st.printers id = some p) (hid : p.id = id) :
    historyOf (applyOp st (.check id res now)) id
      = if p.status = checkStatusOf res then historyOf st id
        else appendEvict (historyOf st id)
            ⟨now, checkStatusOf res, checkMessageOf res, checkErrorCodeOf res⟩ := by
  have hhist : ∀ (st' : ServiceState) (s : PrinterStatus) (m ec : Option String),
      historyOf st' id = historyOf st id →
      historyOf (if p.status ≠ s then addStatusHistoryEntry st' id s m ec now else st') id
        = if p.status = s then historyOf st id
          else appendEvict (historyOf st id) ⟨now, s, m, ec⟩ := by
    intro st' s m ec heq
    by_cases hs : p.status = s
    · simp [hs, heq]
    · simp only [hs, if_false, ne_eq, not_false_iff, if_true]
      rw [addStatusHistoryEntry_historyOf, heq]
  cases res with
  | unreachable =>
    have hsh : historyOf (applyOp st (.check id .unreachable now)) id
        = historyOf (if p.status ≠ PrinterStatus.offline
            then addStatusHistoryEntry st p.id .offline (some "Network unreachable") none now
            else st) id := by
      unfold historyOf
      simp only [applyOp, h, checkPrinterStatus]
      rw [updatePrinterStatus_statusHistory]
    rw [hsh, hid]
    exact hhist st .offline (some "Network unreachable") none rfl
  | detected d =>
    have hsh : historyOf (applyOp st (.check id (.detected d) now)) id
        = historyOf (if p.status ≠ d.status
            then addStatusHistoryEntry st p.id d.status d.message d.errorCode now
            else st) id := by
      unfold historyOf
      simp only [applyOp, h, checkPrinterStatus]
      rw [checkWithData_statusHistory]
    rw [hsh, hid]
    exact hhist st d.status d.message d.errorCode rfl
  | noData =>
    have hsh : historyOf (applyOp st (.check id .noData now)) id
        = historyOf (if p.status ≠ PrinterStatus.ready
            then addStatusHistoryEntry st p.id .ready
              (some "Status detection limited - assuming ready") none now
            else st) id := by
      unfold historyOf
      simp only [applyOp, h, checkPrinterStatus]
      rw [checkWithData_statusHistory]
    rw [hsh, hid]
    exact hhist st .ready (some "Status detection limited - assuming ready") none rfl
  | exception msg =>
    have hlk := processErrorCodes_getD_status_id st id ("Connection error: " ++ msg)
      p.model now p h
    have hst1 : historyOf (processErrorCodes st id ("Connection error: " ++ msg)
        p.model now) id = historyOf st id := processErrorCodes_historyOf ..
    have hsh : historyOf (applyOp st (.check id (.exception msg) now)) id
        = historyOf (if p.status ≠ PrinterStatus.error
            then addStatusHistoryEntry
              (processErrorCodes st id ("Connection error: " ++ msg) p.model now) id .error
              (some ("Connection error: " ++ msg)) none now
            else processErrorCodes st id ("Connection error: " ++ msg) p.model now) id := by
      unfold historyOf
      simp only [applyOp, h, checkPrinterStatus, hid]
      rw [updatePrinterStatus_statusHistory]
      rw [hlk.1, hlk.2, hid]
    rw [hsh]
    exact hhist _ .error (some ("Connection error: " ++ msg)) none hst1

/-- After one check on a registered device, the registry holds a record with
the check's resulting status under the same id. -/
theorem applyOp_check_lookup (st : ServiceState) (id : String) (res : CheckResult)
    (now : Nat) (p : Printer) (h : getAssoc st.printers id = some p) (hid : p.id = id) :
    ∃ q, getAssoc (applyOp st (.check id res now)).printers id = some q ∧
      q.status = checkStatusOf res ∧ q.id = id := by
  cases res with
  | unreachable =>
    simp only [applyOp, h, checkPrinterStatus, updatePrinterStatus, hid]
    exact ⟨_, getAssoc_setAssoc_self _ _ _, rfl, rfl⟩
  | detected d =>
    simp only [applyOp, h, checkPrinterStatus, checkWithData, hid]
    exact ⟨_, getAssoc_setAssoc_self _ _ _, rfl, rfl⟩
  | noData =>
    simp only [applyOp, h, checkPrinterStatus, checkWithData, hid]
    exact ⟨_, getAssoc_setAssoc_self _ _ _, rfl, rfl⟩
  | exception msg =>
    have hlk := processErrorCodes_getD_status_id st id ("Connection error: " ++ msg)
      p.model now p h
    simp only [applyOp, h, checkPrinterStatus, updatePrinterStatus, hid]
    rw [hlk.2, hid]
    exact ⟨_, getAssoc_setAssoc_self _ _ _, rfl, rfl⟩

/-! ## Claim C6 -/

/-- C6, confirmed: a completed check appends a history entry (with the FIFO
eviction of C4) exactly when the resulting status differs from the device's
immediately preceding status; consequently the second of two consecutive
Ready-yielding checks appends nothing. -/
theorem c6_append_iff_status_change :
    (∀ (st : ServiceState) (id : String) (res : CheckResult) (now : Nat) (p : Printer),
      getAssoc st.printers id = some p → p.id = id →
      historyOf (applyOp st (.check id res now)) id
        = if p.status = checkStatusOf res then historyOf st id
          else appendEvict (historyOf st id)
              ⟨now, checkStatusOf res, checkMessageOf res, checkErrorCodeOf res⟩) ∧
    (∀ (st : ServiceState) (id : String) (res1 res2 : CheckResult) (n1 n2 : Nat) (p : Printer),
      getAssoc st.printers id = some p → p.id = id →
      checkStatusOf res1 = PrinterStatus.ready → checkStatusOf res2 = PrinterStatus.ready →
      historyOf (applyOp (applyOp st (.check id res1 n1)) (.check id res2 n2)) id
        = historyOf (applyOp st (.check id res1 n1)) id) := by
  constructor
  · exact check_historyOf
  · intro st id res1 res2 n1 n2 p h hid h1 h2
    obtain ⟨q, hq, hqs, hqid⟩ := applyOp_check_lookup st id res1 n1 p h hid
    rw [check_historyOf _ id res2 n2 q hq hqid, if_pos]
    rw [hqs, h1, h2]

/-- C6, witness: a fresh Offline device checked with a Ready payload appends
one entry; checked Ready again, the history is unchanged. -/
theorem c6_append_iff_status_change_witness :
    (historyOf (applyOp (runOps [.add cfg1 0]) (.check "p1" (.detected dReady) 5)) "p1"
      = if (freshPrinter cfg1 0).status = checkStatusOf (.detected dReady)
        then historyOf (runOps [.add cfg1 0]) "p1"
        else appendEvict (historyOf (runOps [.add cfg1 0]) "p1")
            ⟨5, checkStatusOf (.detected dReady), checkMessageOf (.detected dReady),
             checkErrorCodeOf (.detected dReady)⟩) ∧
    historyOf (applyOp (applyOp (runOps [.add cfg1 0]) (.check "p1" (.detected dReady) 5))
        (.check "p1" (.detected dReady) 6)) "p1"
      = historyOf (applyOp (runOps [.add cfg1 0]) (.check "p1" (.detected dReady) 5)) "p1" :=
  ⟨c6_append_iff_status_change.1 (runOps [.add cfg1 0]) "p1" (.detected dReady) 5
      (freshPrinter cfg1 0) (by decide) (by decide),
   c6_append_iff_status_change.2 (runOps [.add cfg1 0]) "p1" (.detected dReady)
      (.detected dReady) 5 6 (freshPrinter cfg1 0) (by decide) (by decide)
      (by decide) (by decide)⟩

/-! ## Claim C2 -/

/-- C2, counterexample: a device added at `10.0.0.5` and then checked while
unreachable ends Offline with an **empty** history — no "Network
unreachable" entry is appended, because the fresh device is already Offline
and a check appends only on a status change. -/
theorem c2_counterexample :
    (getAssoc (runOps [.add cfg1 0, .check "p1" .unreachable 1]).printers "p1").map
        (fun p => p.status) = some PrinterStatus.offline ∧
    historyOf (runOps [.add cfg1 0, .check "p1" .unreachable 1]) "p1" = [] := by
  constructor
  · decide
  · decide

/-- C2, amended: for a newly added device whose address is unreachable under
all probe techniques, running a check leaves the status Offline and appends
no history entry (the fresh record is already Offline, and a history entry
is appended only when the status changes). -/
theorem c2_unreachable_fresh :
    ∀ (cfg : PrinterConfig) (n m : Nat),
      (getAssoc (applyOp (applyOp emptyState (.add cfg n))
          (.check cfg.id .unreachable m)).printers cfg.id).map (fun p => p.status)
        = some PrinterStatus.offline ∧
      historyOf (applyOp (applyOp emptyState (.add cfg n))
          (.check cfg.id .unreachable m)) cfg.id = [] := by
  intro cfg n m
  simp [applyOp, addPrinter, emptyState, setAssoc, getAssoc, checkPrinterStatus,
    updatePrinterStatus, freshPrinter, historyOf, addStatusHistoryEntry]

/-! ## Claim C7 -/

/-- C7, counterexample: after observing code `99`, resolving it, and
observing it again, the device has an unresolved entry for `99`; the double
resolve then leaves **two** resolved entries for `99`, not exactly one. -/
theorem c7_counterexample :
    hasUnresolved (errorCodesOf (runOps opsSeenTwice) "p1") "99" = true ∧
    resCount (errorCodesOf (runOps opsDoubleResolve) "p1") "99" = 2 := by
  constructor
  · decide
  · decide

theorem hasUnresolved_iff (l : List ErrorCode) (code : String) :
    hasUnresolved l code = true ↔ ∃ e, e ∈ l ∧ (e.code = code && !e.resolved) = true := by
  simp [hasUnresolved, List.find?_isSome]

theorem hasUnresolved_false_of_count {l : List ErrorCode} {code : String}
    (h : unresCount l code = 0) : hasUnresolved l code = false := by
  rw [← Bool.not_eq_true, hasUnresolved_iff]
  rintro ⟨e, he, hp⟩
  unfold unresCount at h
  rw [List.length_eq_zero] at h
  have : e ∈ List.filter (fun e => e.code = code && !e.resolved) l :=
    List.mem_filter.2 ⟨he, hp⟩
  rw [h] at this
  simp at this

theorem hasUnresolved_true_of_count {l : List ErrorCode} {code : String}
    (h : unresCount l code ≠ 0) : hasUnresolved l code = true := by
  rw [hasUnresolved_iff]
  unfold unresCount at h
  rcases List.exists_mem_of_length_pos (Nat.pos_of_ne_zero h) with ⟨e, he⟩
  rcases List.mem_filter.1 he with ⟨hel, hp⟩
  exact ⟨e, hel, hp⟩

theorem resolveFirst_counts (l : List ErrorCode) (code : String)
    (h : hasUnresolved l code = true) :
    unresCount (resolveFirst l code) code = unresCount l code - 1 ∧
    resCount (resolveFirst l code) code = resCount l code + 1 := by
  induction l with
  | nil => simp [hasUnresolved] at h
  | cons e rest ih =>
    by_cases hc : (e.code = code && !e.resolved) = true
    · have hcode : e.code = code := by
        simp at hc
        exact hc.1
      have hres : e.resolved = false := by
        simp at hc
        simpa using hc.2
      unfold resolveFirst unresCount resCount
      rw [if_pos hc]
      simp [List.filter_cons, hc, hcode, hres, unresCount, resCount]
    · have htail : hasUnresolved rest code = true := by
        rcases (hasUnresolved_iff _ _).1 h with ⟨a, ha, hpa⟩
        rcases List.mem_cons.1 ha with ha | ha
        · exact absurd (ha ▸ hpa) hc
        · exact (hasUnresolved_iff _ _).2 ⟨a, ha, hpa⟩
      rcases ih htail with ⟨ih1, ih2⟩
      unfold resolveFirst unresCount resCount
      rw [if_neg hc]
      rw [List.filter_cons, List.filter_cons, List.filter_cons, List.filter_cons]
      constructor
      · cases hp1 : (e.code = code && !e.resolved)
        · simpa [hp1, unresCount] using ih1
        · exact absurd hp1 hc
      · cases hp2 : (e.code = code && e.resolved)
        · simpa [hp2, resCount] using ih2
        · simpa [hp2, resCount] using ih2

/-- C7, amended: for a device holding exactly one unresolved entry for a
code (which the C5 invariant guarantees for reachable states), ResolveError
resolves it — no unresolved entry remains and the resolved count rises by
exactly one (so exactly one resolved entry when none existed before) — and a
second call changes nothing at all. -/
theorem c7_resolve_idempotent :
    ∀ (st : ServiceState) (id code : String),
      unresCount (errorCodesOf st id) code = 1 →
      resolveErrorCode (resolveErrorCode st id code) id code = resolveErrorCode st id code ∧
      unresCount (errorCodesOf (resolveErrorCode st id code) id) code = 0 ∧
      resCount (errorCodesOf (resolveErrorCode st id code) id) code
        = resCount (errorCodesOf st id) code + 1 := by
  intro st id code h1
  cases hg : getAssoc st.printers id with
  | none =>
    exfalso
    unfold errorCodesOf at h1
    rw [hg] at h1
    simp [unresCount] at h1
  | some p =>
    have hecs : errorCodesOf st id = p.errorCodes := by
      unfold errorCodesOf
      rw [hg]
      rfl
    rw [hecs] at h1
    have hu : hasUnresolved p.errorCodes code = true :=
      hasUnresolved_true_of_count (by omega)
    have hst1 : resolveErrorCode st id code
        = { st with printers := (setAssoc st.printers id { p with errorCodes := resolveFirst p.errorCodes code }) } := by
      simp only [resolveErrorCode, hg, if_pos hu]
    have hcounts := resolveFirst_counts p.errorCodes code hu
    have hecs1 : errorCodesOf (resolveErrorCode st id code) id
        = resolveFirst p.errorCodes code := by
      rw [hst1]
      unfold errorCodesOf
      rw [getAssoc_setAssoc_self]
      rfl
    have hzero : unresCount (errorCodesOf (resolveErrorCode st id code) id) code = 0 := by
      rw [hecs1, hcounts.1, h1]
    have hcount0 : unresCount (resolveFirst p.errorCodes code) code = 0 := by
      rw [hcounts.1, h1]
    have hfalse : hasUnresolved (resolveFirst p.errorCodes code) code = false :=
      hasUnresolved_false_of_count hcount0
    refine ⟨?_, hzero, by rw [hecs1, hcounts.2, hecs]⟩
    rw [hst1]
    simp only [resolveErrorCode, getAssoc_setAssoc_self]
    rw [if_neg (by simp [hfalse])]

/-- C7, witness for the amended theorem at a one-device state holding one
unresolved entry for `99`. -/
theorem c7_resolve_idempotent_witness :
    resolveErrorCode (resolveErrorCode stOneUnresolved "p1" "99") "p1" "99"
        = resolveErrorCode stOneUnresolved "p1" "99" ∧
    unresCount (errorCodesOf (resolveErrorCode stOneUnresolved "p1" "99") "p1") "99" = 0 ∧
    resCount (errorCodesOf (resolveErrorCode stOneUnresolved "p1" "99") "p1") "99"
        = resCount (errorCodesOf stOneUnresolved "p1") "99" + 1 :=
  c7_resolve_idempotent stOneUnresolved "p1" "99" (by decide)

/-! ## Claim C10 -/

/-- C10, confirmed: re-adding a registered id overwrites it with a fresh
record (Offline, empty history, empty error ledger) and leaves every other
id's record and history untouched. -/
theorem c10_add_overwrites :
    ∀ (st : ServiceState) (cfg : PrinterConfig) (now : Nat) (other : String),
      (getAssoc st.printers cfg.id).isSome →
      getAssoc (addPrinter st cfg now).printers cfg.id = some (freshPrinter cfg now) ∧
      (freshPrinter cfg now).status = PrinterStatus.offline ∧
      (freshPrinter cfg now).statusHistory = [] ∧
      (freshPrinter cfg now).errorCodes = [] ∧
      historyOf (addPrinter st cfg now) cfg.id = [] ∧
      (other ≠ cfg.id →
        getAssoc (addPrinter st cfg now).printers other = getAssoc st.printers other ∧
        historyOf (addPrinter st cfg now) other = historyOf st other) := by
  intro st cfg now other _
  refine ⟨getAssoc_setAssoc_self _ _ _, rfl, rfl, rfl, ?_, ?_⟩
  · unfold historyOf addPrinter
    rw [getAssoc_setAssoc_self]
    rfl
  · intro hne
    constructor
    · exact getAssoc_setAssoc_ne _ _ _ _ hne
    · unfold historyOf addPrinter
      rw [getAssoc_setAssoc_ne _ _ _ _ hne]

/-- C10, witness: re-adding `p1` over an existing registration, with `p2` as
the unaffected other id. -/
theorem c10_add_overwrites_witness :
    getAssoc (addPrinter (runOps [.add cfg1 0]) cfg1 7).printers cfg1.id
        = some (freshPrinter cfg1 7) ∧
    historyOf (addPrinter (runOps [.add cfg1 0]) cfg1 7) "p2"
        = historyOf (runOps [.add cfg1 0]) "p2" := by
  have h := c10_add_overwrites (runOps [.add cfg1 0]) cfg1 7 "p2" (by decide)
  exact ⟨h.1, (h.2.2.2.2.2 (by decide)).2⟩

end PrinterStatusRepo
